import Mathlib

/-
Verification of the montrealfirepredicition data pipeline
(src/montrealfirepredicition/pipelines/data_processing/nodes.py and
src/montrealfirepredicition/pipelines/feature_engineering/nodes.py).

Shallow embedding: a pandas cell is an optional Value (none models NaN or
null), a dataframe row is an association list from column names to cells,
and a dataframe is a list of rows. Column-wise helpers of the source are
translated function by function. Geometry is abstracted by an explicit
intersection test where the source calls the GIS library.
-/

namespace MontrealFire

/-- A scalar cell payload of a dataframe: a string or a number. Numbers are
modelled as rationals, which cover every integer and decimal literal the
pipeline manipulates. -/
inductive Value where
  | str : String → Value
  | num : Rat → Value
deriving DecidableEq

/-- A pandas cell: none models NaN or null. -/
abbrev Cell := Option Value

/-- A dataframe row: association list from column names to cells. -/
abbrev Row := List (String × Cell)

/-- Reading a column of a row: the first entry with that name, a missing
entry or a stored null both read as none. -/
def getCol (r : Row) (c : String) : Cell := (List.lookup c r).join

/-! ### data_processing/nodes.py -/

/-- Translation of the function at data_processing/nodes.py lines 36-45.
The source uses chained comparisons (5 <= hour < 12 and so on) over the
hour taken from a timestamp. -/
def get_time_of_day (hour : Int) : String :=
  if 5 ≤ hour ∧ hour < 12 then "morning"
  else if 12 ≤ hour ∧ hour < 17 then "afternoon"
  else if 17 ≤ hour ∧ hour < 21 then "evening"
  else "night"

/-- A raw cell value as seen by pd.to_numeric: either it parses to a number
or it does not (non-numeric strings and nulls alike). -/
inductive RawCell where
  | numeric : Rat → RawCell
  | nonNumeric : RawCell
deriving DecidableEq

/-- pd.to_numeric with errors set to coerce: failures become NaN (none). -/
def to_numeric_coerce : RawCell → Option Rat
  | .numeric q => some q
  | .nonNumeric => none

/-- Series.fillna(0). -/
def fillna_zero (x : Option Rat) : Rat := x.getD 0

/-- Series.astype(int): numpy float-to-int conversion truncates toward
zero. -/
def astype_int (q : Rat) : Int := if 0 ≤ q then ⌊q⌋ else ⌈q⌉

/-- Translation of the function at data_processing/nodes.py lines 58-61:
to_numeric with coercion, then fillna(0), then astype(int), applied to one
cell. -/
def parse_integers (x : RawCell) : Int :=
  astype_int (fillna_zero (to_numeric_coerce x))

/-- The np.where at data_processing/nodes.py lines 270-272: a year of
construction above 2024 (the hard-coded current processing year) becomes
NaN, any other year is kept. -/
def year_construction_clamp (y : Int) : Option Int :=
  if y ≤ 2024 then some y else none

/-- Translation of the function at data_processing/nodes.py lines 74-77:
for each (column, value) pair in order, keep only the rows whose cell in
that column is not equal to the value. A pandas comparison of NaN with a
scalar is not-equal, so a null cell passes every such filter; the model
reflects this since none differs from some v. -/
def remove_incident_outliers (x : List Row)
    (values_to_drop : List (String × Value)) : List Row :=
  values_to_drop.foldl
    (fun y p => y.filter (fun r => getCol r p.1 != some p.2)) x

/-- Translation of the function at data_processing/nodes.py lines 80-82:
dropna on a subset of columns keeps the rows whose cells in every checked
column are present. -/
def remove_incident_NaN (x : List Row) (columns_to_check : List String) :
    List Row :=
  x.filter (fun r => columns_to_check.all (fun c => (getCol r c).isSome))

/-- The outlier configuration of preprocess_incidents,
data_processing/nodes.py lines 150-153. -/
def outliers_to_drop : List (String × Value) :=
  [("INCIDENT_CATEGORY", .str "NOUVEAU"), ("LATITUDE", .num 0)]

/-- The required columns of preprocess_incidents,
data_processing/nodes.py line 156. -/
def columns_to_check : List String :=
  ["LATITUDE", "LONGITUDE", "INCIDENT_CATEGORY"]

/-- Sample row carrying the forbidden incident category. -/
def row_nouveau : Row :=
  [("INCIDENT_CATEGORY", some (.str "NOUVEAU")), ("LATITUDE", some (.num 45))]

/-- Sample row carrying the forbidden zero latitude. -/
def row_lat0 : Row :=
  [("INCIDENT_CATEGORY", some (.str "Autres incendies")),
   ("LATITUDE", some (.num 0))]

/-- Sample row matching no forbidden pair. -/
def row_ok : Row :=
  [("INCIDENT_CATEGORY", some (.str "Autres incendies")),
   ("LATITUDE", some (.num 45))]

/-- Sample row with a null incident category and non-null coordinates. -/
def row_null_category : Row :=
  [("INCIDENT_CATEGORY", none), ("LATITUDE", some (.num 45)),
   ("LONGITUDE", some (.num 3))]

/-! ### feature_engineering/nodes.py -/

/-- The np.where at feature_engineering/nodes.py lines 11-15: a cell is
flagged when its value is in the condition list; a null cell is not in any
list, so it is flagged false, never null. -/
def generate_flag (x : List Cell) (condition : List Value) : List Bool :=
  x.map (fun c =>
    match c with
    | some v => condition.contains v
    | none => false)

/-- The condition list passed to the flag at feature_engineering/nodes.py
lines 188-189, byte for byte: the second literal of the source is the
mojibake rendering of the building-fires category, whose accented letter
appears as the two characters square-root and cent sign. -/
def fire_flag_categories : List Value :=
  [.str "Autres incendies", .str "Incendies de b√¢timents"]

/-- The key of a joined row under a subset of columns, as drop_duplicates
uses it. -/
def dedup_key (subset : List String) (r : Row) : List Cell :=
  subset.map (getCol r)

/-- Recursion of drop_duplicates with keep set to first: walk the rows in
order, keep a row whenever its key has not been seen, remember the key. -/
def remove_duplicates_aux (subset : List String) :
    List (List Cell) → List Row → List Row
  | _, [] => []
  | seen, r :: rest =>
    if dedup_key subset r ∈ seen then remove_duplicates_aux subset seen rest
    else r :: remove_duplicates_aux subset (dedup_key subset r :: seen) rest

/-- Translation of the function at feature_engineering/nodes.py lines
26-30: drop_duplicates on a subset of columns keeping the first
occurrence of each key. -/
def remove_duplicates (x : List Row) (subset : List String) : List Row :=
  remove_duplicates_aux subset [] x

/-- Translation of the function at feature_engineering/nodes.py lines
18-23: an inner spatial join listing, in left-row order, every mesh cell a
point intersects. The geometric intersects test of the GIS library is
abstracted as an explicit boolean predicate; column suffixing does not
arise for the disjoint column sets joined here, so the joined row is the
concatenation of the two rows. -/
def spatial_join_points (x_left x_right : List Row)
    (intersects : Row → Row → Bool) : List Row :=
  x_left.flatMap
    (fun p => (x_right.filter (fun c => intersects p c)).map (fun c => p ++ c))

/-- Translation of the function at feature_engineering/nodes.py lines
33-39: spatial join followed by first-kept deduplication on the given key
columns. -/
def intersect_mesh (x mesh : List Row) (intersects : Row → Row → Bool)
    (duplicate_keys : List String) : List Row :=
  remove_duplicates (spatial_join_points x mesh intersects) duplicate_keys

/-- np.radians: degrees to radians. -/
noncomputable def np_radians (d : ℝ) : ℝ := d * Real.pi / 180

/-- np.arctan2(y, x) over the reals, with the numpy branch structure;
the signed zeros of floating point are idealized away, the origin maps
to 0. -/
noncomputable def np_arctan2 (y x : ℝ) : ℝ :=
  if 0 < x then Real.arctan (y / x)
  else if x < 0 then
    (if 0 ≤ y then Real.arctan (y / x) + Real.pi
     else Real.arctan (y / x) - Real.pi)
  else
    (if 0 < y then Real.pi / 2
     else if y < 0 then -(Real.pi / 2)
     else 0)

/-- Translation of the function at feature_engineering/nodes.py lines
53-62: the haversine great-circle distance with Earth radius 6371
kilometers, float arithmetic idealized as real arithmetic. -/
noncomputable def haversine_distance (lat1 lon1 lat2 lon2 : ℝ) : ℝ :=
  let R : ℝ := 6371
  let phi1 := np_radians lat1
  let phi2 := np_radians lat2
  let delta_phi := np_radians (lat2 - lat1)
  let delta_lambda := np_radians (lon2 - lon1)
  let a := Real.sin (delta_phi / 2) ^ 2 +
    Real.cos phi1 * Real.cos phi2 * Real.sin (delta_lambda / 2) ^ 2
  let c := 2 * np_arctan2 (Real.sqrt a) (Real.sqrt (1 - a))
  R * c

/-- One joined row of the merge at feature_engineering/nodes.py lines
182-183: the station coordinate columns collide with the left columns of
the same name, so the suffix pair with empty left suffix renames the right
columns to LATITUDE_firestation and LONGITUDE_firestation. -/
def attach_station (r s : Row) : Row :=
  r ++ [("LATITUDE_firestation", getCol s "LATITUDE"),
        ("LONGITUDE_firestation", getCol s "LONGITUDE")]

/-- A left row without a station match keeps null station coordinates. -/
def attach_no_station (r : Row) : Row :=
  r ++ [("LATITUDE_firestation", none), ("LONGITUDE_firestation", none)]

/-- The left merge at feature_engineering/nodes.py lines 182-183, joining
on the FIRE_STATION_ID column of both sides: each left row is paired with
every station row whose FIRE_STATION_ID cell is equal to its own, and a
left row with no match is kept once with null station coordinates. -/
def merge_station_coords (table firestations : List Row) : List Row :=
  table.flatMap (fun r =>
    match firestations.filter
        (fun s => getCol s "FIRE_STATION_ID" == getCol r "FIRE_STATION_ID") with
    | [] => [attach_no_station r]
    | ms => ms.map (fun s => attach_station r s))

/-- The distance column entry of feature_engineering/nodes.py lines
184-185 for one merged row: the haversine distance from the grid-cell
centroid to the joined station coordinates, NaN whenever any of the four
operands is NaN, as numpy arithmetic propagates NaN. -/
noncomputable def distance_entry (r : Row) : Option ℝ :=
  match getCol r "grid_lat", getCol r "grid_long",
      getCol r "LATITUDE_firestation", getCol r "LONGITUDE_firestation" with
  | some (.num a), some (.num b), some (.num c), some (.num d) =>
      some (haversine_distance (a : ℝ) (b : ℝ) (c : ℝ) (d : ℝ))
  | _, _, _, _ => none

/-- The DataFrame.drop of a column list, row-wise. -/
def drop_columns_row (r : Row) (cols : List String) : Row :=
  r.filter (fun p => !(cols.contains p.1))

/-- The final drop at feature_engineering/nodes.py line 192: the columns
named LATITUDE and LONGITUDE are removed. -/
def final_cleanup (r : Row) : Row :=
  drop_columns_row r ["LATITUDE", "LONGITUDE"]

/-- Translation of the function at feature_engineering/nodes.py lines
65-70, applied element-wise; the current year of the wall clock is passed
explicitly. -/
def calculate_building_age (current_year y : Int) : Int := current_year - y

/-- The np.where at feature_engineering/nodes.py lines 178-179 for one
row: rows with a non-null assessment identifier get the building age
applied to their construction year (NaN years stay NaN under the
subtraction), all other rows get NaN. -/
def building_age_entry (current_year : Int) (assessment_id : Cell)
    (year_construction : Option Int) : Option Int :=
  if assessment_id.isSome then
    year_construction.map (fun y => calculate_building_age current_year y)
  else none

/-- Sample merged-table row: its dispatched station is 10 and its grid
cell lies in the service area of station 20. -/
def merged_row : Row :=
  [("DISPATCHED_FIRE_STATION_ID", some (.num 10)),
   ("FIRE_STATION_ID", some (.num 20)),
   ("grid_lat", some (.num 45)), ("grid_long", some (.num (-73))),
   ("LATITUDE", some (.num 45)), ("LONGITUDE", some (.num (-73)))]

/-- Sample station row with identifier 10. -/
def station10 : Row :=
  [("FIRE_STATION_ID", some (.num 10)), ("LATITUDE", some (.num 1)),
   ("LONGITUDE", some (.num 2))]

/-- Sample station row with identifier 20. -/
def station20 : Row :=
  [("FIRE_STATION_ID", some (.num 20)), ("LATITUDE", some (.num 3)),
   ("LONGITUDE", some (.num 4))]

/-- Sample point record with a unique identifier. -/
def point1 : Row := [("INCIDENT_ID", some (.num 7))]

/-- Sample mesh cell. -/
def cellA : Row := [("grid_lat", some (.num 1))]

/-- Second sample mesh cell, adjacent to the first. -/
def cellB : Row := [("grid_lat", some (.num 2))]

/-! ### Theorems -/

/-- Lookup passes over a left list in which the key is absent. -/
theorem lookup_append_of_none (c : String) (l₁ l₂ : Row)
    (h : List.lookup c l₁ = none) :
    List.lookup c (l₁ ++ l₂) = List.lookup c l₂ := by
  induction l₁ with
  | nil => simp
  | cons p rest ih =>
    obtain ⟨k, v⟩ := p
    cases hck : (c == k) with
    | true => simp [List.lookup, hck] at h
    | false =>
      simp only [List.lookup, hck] at h
      simpa [List.lookup, hck] using ih h

/-- Lookup stops at a hit in the left list. -/
theorem lookup_append_of_some (c : String) (l₁ l₂ : Row) (v : Cell)
    (h : List.lookup c l₁ = some v) :
    List.lookup c (l₁ ++ l₂) = some v := by
  induction l₁ with
  | nil => simp at h
  | cons p rest ih =>
    obtain ⟨k, w⟩ := p
    cases hck : (c == k) with
    | true => simpa [List.lookup, hck] using h
    | false =>
      simp only [List.lookup, hck] at h
      simpa [List.lookup, hck] using ih h

/-- Reading a column that the appended station pairs do not carry gives
the left value of the merged row. -/
theorem getCol_attach_station_other (r s : Row) (c : String)
    (h1 : (c == "LATITUDE_firestation") = false)
    (h2 : (c == "LONGITUDE_firestation") = false) :
    getCol (attach_station r s) c = getCol r c := by
  cases hr : List.lookup c r with
  | none =>
    rw [getCol, attach_station, lookup_append_of_none c r _ hr]
    simp [getCol, List.lookup, h1, h2, hr]
  | some v =>
    rw [getCol, attach_station, lookup_append_of_some c r _ v hr]
    simp [getCol, hr]

/-- Reading a column that the appended null pairs do not carry gives the
left value of the merged row. -/
theorem getCol_attach_no_station_other (r : Row) (c : String)
    (h1 : (c == "LATITUDE_firestation") = false)
    (h2 : (c == "LONGITUDE_firestation") = false) :
    getCol (attach_no_station r) c = getCol r c := by
  cases hr : List.lookup c r with
  | none =>
    rw [getCol, attach_no_station, lookup_append_of_none c r _ hr]
    simp [getCol, List.lookup, h1, h2, hr]
  | some v =>
    rw [getCol, attach_no_station, lookup_append_of_some c r _ v hr]
    simp [getCol, hr]

/-- The joined station latitude of a merged row that did not already carry
the suffixed column. -/
theorem getCol_attach_station_lat (r s : Row)
    (h : List.lookup "LATITUDE_firestation" r = none) :
    getCol (attach_station r s) "LATITUDE_firestation"
      = getCol s "LATITUDE" := by
  rw [getCol, attach_station, lookup_append_of_none _ r _ h]
  simp [List.lookup]

/-- The joined station longitude of a merged row that did not already
carry the suffixed column. -/
theorem getCol_attach_station_long (r s : Row)
    (h : List.lookup "LONGITUDE_firestation" r = none) :
    getCol (attach_station r s) "LONGITUDE_firestation"
      = getCol s "LONGITUDE" := by
  rw [getCol, attach_station, lookup_append_of_none _ r _ h]
  simp [List.lookup]

/-- A merged row without a station match reads null station latitude. -/
theorem getCol_attach_no_station_lat (r : Row)
    (h : List.lookup "LATITUDE_firestation" r = none) :
    getCol (attach_no_station r) "LATITUDE_firestation" = none := by
  rw [getCol, attach_no_station, lookup_append_of_none _ r _ h]
  simp [List.lookup]

/-- A merged row without a station match reads null station longitude. -/
theorem getCol_attach_no_station_long (r : Row)
    (h : List.lookup "LONGITUDE_firestation" r = none) :
    getCol (attach_no_station r) "LONGITUDE_firestation" = none := by
  rw [getCol, attach_no_station, lookup_append_of_none _ r _ h]
  simp [List.lookup]

/-- Row-wise column drop removes exactly the named columns from the key
list and leaves every other lookup unchanged. -/
theorem lookup_drop_columns_row (r : Row) (cols : List String)
    (c : String) :
    List.lookup c (drop_columns_row r cols)
      = if cols.contains c then none else List.lookup c r := by
  induction r with
  | nil => split <;> rfl
  | cons p rest ih =>
    obtain ⟨k, v⟩ := p
    by_cases hk : k ∈ cols
    · have hstep : drop_columns_row ((k, v) :: rest) cols
          = drop_columns_row rest cols := by
        simp [drop_columns_row, List.filter_cons, hk]
      rw [hstep, ih]
      by_cases hc : c ∈ cols
      · simp [hc]
      · have hck : (c == k) = false := by
          rw [beq_eq_false_iff_ne]
          intro e
          exact hc (e ▸ hk)
        simp [hc, List.lookup, hck]
    · have hstep : drop_columns_row ((k, v) :: rest) cols
          = (k, v) :: drop_columns_row rest cols := by
        simp [drop_columns_row, List.filter_cons, hk]
      rw [hstep]
      cases hck : (c == k) with
      | true =>
        have e : c = k := beq_iff_eq.mp hck
        subst e
        simp [List.lookup, hk]
      | false => simp [List.lookup, hck, ih]

/-- Rows whose key was already seen are all dropped by the deduplication
walk. -/
theorem remove_duplicates_aux_filter_mem (subset : List String)
    (l : List Row) (seen : List (List Cell)) (k : List Cell)
    (hk : k ∈ seen) :
    (remove_duplicates_aux subset seen l).filter
      (fun r => dedup_key subset r == k) = [] := by
  induction l generalizing seen with
  | nil => simp [remove_duplicates_aux]
  | cons r rest ih =>
    simp only [remove_duplicates_aux]
    split_ifs with hmem
    · exact ih seen hk
    · rw [List.filter_cons]
      have hne : ¬(dedup_key subset r == k) = true := by
        simp only [beq_iff_eq]
        intro h
        exact hmem (h ▸ hk)
      simp only [hne, if_false]
      exact ih (dedup_key subset r :: seen) (List.mem_cons_of_mem _ hk)

/-- Rows with an unseen key: the deduplication walk keeps exactly the
first row of that key. -/
theorem remove_duplicates_aux_filter_not_mem (subset : List String)
    (l : List Row) (seen : List (List Cell)) (k : List Cell)
    (hk : k ∉ seen) :
    (remove_duplicates_aux subset seen l).filter
        (fun r => dedup_key subset r == k)
      = (l.filter (fun r => dedup_key subset r == k)).take 1 := by
  induction l generalizing seen with
  | nil => simp [remove_duplicates_aux]
  | cons r rest ih =>
    simp only [remove_duplicates_aux]
    split_ifs with hmem
    · have hne : ¬(dedup_key subset r == k) = true := by
        simp only [beq_iff_eq]
        intro h
        exact hk (h ▸ hmem)
      rw [List.filter_cons]
      simp only [hne, if_false]
      exact ih seen hk
    · by_cases hrk : dedup_key subset r = k
      · rw [List.filter_cons, List.filter_cons]
        simp only [hrk, beq_self_eq_true, if_true, List.take_succ_cons,
          List.take_zero]
        rw [remove_duplicates_aux_filter_mem subset rest _ k
          (hrk ▸ List.mem_cons_self _ _)]
      · have hne : ¬(dedup_key subset r == k) = true := by
          simp only [beq_iff_eq]
          exact hrk
        rw [List.filter_cons, List.filter_cons]
        simp only [hne, if_false]
        refine ih (dedup_key subset r :: seen) ?_
        intro h
        rcases List.mem_cons.mp h with h | h
        · exact hrk h.symm
        · exact hk h

/-- Membership in the sequential keep-unless-equals filters: a row is in
the output exactly when it is in the input and matches none of the
forbidden (column, value) pairs. -/
theorem mem_remove_incident_outliers
    (pairs : List (String × Value)) (x : List Row) (r : Row) :
    r ∈ remove_incident_outliers x pairs ↔
      r ∈ x ∧ ∀ p ∈ pairs, getCol r p.1 ≠ some p.2 := by
  induction pairs generalizing x with
  | nil => simp [remove_incident_outliers]
  | cons p ps ih =>
    simp only [remove_incident_outliers, List.foldl_cons] at *
    rw [ih]
    simp only [List.mem_filter, bne_iff_ne, ne_eq, List.mem_cons]
    constructor
    · rintro ⟨⟨hx, hp⟩, hps⟩
      refine ⟨hx, ?_⟩
      rintro q (rfl | hq)
      · exact hp
      · exact hps q hq
    · rintro ⟨hx, h⟩
      exact ⟨⟨hx, h p (Or.inl rfl)⟩, fun q hq => h q (Or.inr hq)⟩

/-- C5: outlier removal keeps a row exactly when it matches none of the
forbidden (column, value) pairs, for every table and pair list; with the
configuration of preprocess_incidents, a row whose INCIDENT_CATEGORY is
NOUVEAU or whose LATITUDE is 0 is absent from the output of the step, and
a row matching neither forbidden pair is present unchanged; on a concrete
three-row table only the unmatched row survives. -/
theorem remove_incident_outliers_spec :
    (∀ (x : List Row) (pairs : List (String × Value)) (r : Row),
      r ∈ remove_incident_outliers x pairs ↔
        r ∈ x ∧ ∀ p ∈ pairs, getCol r p.1 ≠ some p.2) ∧
    (∀ (x : List Row) (r : Row),
      r ∈ remove_incident_outliers x outliers_to_drop ↔
        r ∈ x ∧ getCol r "INCIDENT_CATEGORY" ≠ some (.str "NOUVEAU") ∧
          getCol r "LATITUDE" ≠ some (.num 0)) ∧
    remove_incident_outliers [row_nouveau, row_lat0, row_ok]
      outliers_to_drop = [row_ok] := by
  refine ⟨fun x pairs r => mem_remove_incident_outliers pairs x r,
    fun x r => ?_, by decide⟩
  rw [mem_remove_incident_outliers]
  simp [outliers_to_drop]

/-- C10: a row whose checked cells are all null is never dropped by
outlier removal, because a null cell is never equal to a forbidden value;
the separate missing-value filter is what removes a row, exactly when one
of its required columns is null. Concretely, a row with a null incident
category survives the outlier step untouched and is then dropped by the
dropna step, whose required set contains INCIDENT_CATEGORY. -/
theorem outlier_removal_null_rows_spec :
    (∀ (x : List Row) (pairs : List (String × Value)) (r : Row),
      (∀ p ∈ pairs, getCol r p.1 = none) →
      (r ∈ remove_incident_outliers x pairs ↔ r ∈ x)) ∧
    (∀ (x : List Row) (cols : List String) (r : Row),
      r ∈ remove_incident_NaN x cols ↔
        r ∈ x ∧ ∀ c ∈ cols, getCol r c ≠ none) ∧
    (remove_incident_outliers [row_null_category] outliers_to_drop
        = [row_null_category] ∧
     remove_incident_NaN [row_null_category] columns_to_check = []) := by
  refine ⟨fun x pairs r hnull => ?_, fun x cols r => ?_, by decide⟩
  · rw [mem_remove_incident_outliers]
    constructor
    · exact fun h => h.1
    · refine fun h => ⟨h, fun p hp => ?_⟩
      rw [hnull p hp]
      exact fun h => by cases h
  · simp only [remove_incident_NaN, List.mem_filter, List.all_eq_true,
      decide_eq_true_eq, Option.isSome_iff_ne_none, ne_eq]

/-- C6: after the spatial join onto the mesh, deduplication keyed on the
record identifier keeps exactly one joined row per key present, namely the
first match in join order: the rows of the deduplicated output carrying a
given key are the first row of the join output carrying that key, for the
generic step and for the composed join-then-deduplicate step. Concretely,
a point intersecting two adjacent cells produces two joined rows and only
the first survives. -/
theorem spatial_join_dedup_spec :
    (∀ (l : List Row) (subset : List String) (k : List Cell),
      (remove_duplicates l subset).filter (fun r => dedup_key subset r == k)
        = (l.filter (fun r => dedup_key subset r == k)).take 1) ∧
    (∀ (x mesh : List Row) (inter : Row → Row → Bool)
        (keys : List String) (k : List Cell),
      (intersect_mesh x mesh inter keys).filter
          (fun r => dedup_key keys r == k)
        = ((spatial_join_points x mesh inter).filter
            (fun r => dedup_key keys r == k)).take 1) ∧
    (spatial_join_points [point1] [cellA, cellB] (fun _ _ => true)
        = [point1 ++ cellA, point1 ++ cellB] ∧
     intersect_mesh [point1] [cellA, cellB] (fun _ _ => true) ["INCIDENT_ID"]
        = [point1 ++ cellA]) := by
  refine ⟨fun l subset k =>
      remove_duplicates_aux_filter_not_mem subset l [] k (by simp),
    fun x mesh inter keys k =>
      remove_duplicates_aux_filter_not_mem keys _ [] k (by simp),
    by decide⟩

/-- C1 exhibit: the condition list of the fire flag holds the mojibake
string, which differs from the correctly encoded building-fires category
that preprocessing writes, so a building-fires record is flagged false
while an other-fires record is flagged true and a null category is flagged
false. -/
theorem generate_flag_mojibake_exhibit :
    ("Incendies de bâtiments" : String) ≠ "Incendies de b√¢timents" ∧
    generate_flag
      [some (.str "Incendies de bâtiments"), some (.str "Autres incendies"),
       some (.str "Premier répondant"), none] fire_flag_categories
      = [false, true, false, false] := by decide

/-- C2 counterexample: a row whose dispatched station is 10 but whose grid
cell carries FIRE_STATION_ID 20 is joined to the coordinates of station
20, not to those of its dispatched station 10. -/
theorem create_input_table_distance_cex :
    getCol merged_row "DISPATCHED_FIRE_STATION_ID" = some (.num 10) ∧
    getCol merged_row "FIRE_STATION_ID" = some (.num 20) ∧
    getCol station10 "FIRE_STATION_ID" = some (.num 10) ∧
    getCol station10 "LATITUDE" = some (.num 1) ∧
    getCol station20 "LATITUDE" = some (.num 3) ∧
    (merge_station_coords [merged_row] [station10, station20]).map
        (fun r => getCol r "LATITUDE_firestation") = [some (.num 3)] ∧
    Value.num 3 ≠ Value.num 1 := by decide

/-- C2 as amended: the merge joins each row to station rows by equality of
the FIRE_STATION_ID cells (the station id carried over from the mesh
cell, not the dispatched station id), as a left join: a row with no
matching station id gets a null distance, and a row matched to a station
gets the haversine distance in kilometers between its grid-cell centroid
and that station coordinates. -/
theorem create_input_table_distance_spec :
    (∀ (r : Row) (stations : List Row) (glat glon : Rat),
      List.lookup "LATITUDE_firestation" r = none →
      List.lookup "LONGITUDE_firestation" r = none →
      getCol r "grid_lat" = some (.num glat) →
      getCol r "grid_long" = some (.num glon) →
      stations.filter
          (fun s => getCol s "FIRE_STATION_ID" == getCol r "FIRE_STATION_ID")
        = [] →
      (merge_station_coords [r] stations).map distance_entry = [none]) ∧
    (∀ (r s : Row) (glat glon slat slon : Rat),
      List.lookup "LATITUDE_firestation" r = none →
      List.lookup "LONGITUDE_firestation" r = none →
      getCol r "grid_lat" = some (.num glat) →
      getCol r "grid_long" = some (.num glon) →
      getCol s "LATITUDE" = some (.num slat) →
      getCol s "LONGITUDE" = some (.num slon) →
      getCol s "FIRE_STATION_ID" = getCol r "FIRE_STATION_ID" →
      (merge_station_coords [r] [s]).map distance_entry
        = [some (haversine_distance (glat : ℝ) (glon : ℝ) (slat : ℝ)
            (slon : ℝ))]) := by
  constructor
  · intro r stations glat glon hlat hlong hga hgo hfilter
    simp only [merge_station_coords, List.flatMap_cons, List.flatMap_nil,
      List.append_nil, hfilter, List.map_cons, List.map_nil]
    have g1 : getCol (attach_no_station r) "grid_lat"
        = some (.num glat) := by
      rw [getCol_attach_no_station_other r _ (by decide) (by decide), hga]
    have g2 : getCol (attach_no_station r) "grid_long"
        = some (.num glon) := by
      rw [getCol_attach_no_station_other r _ (by decide) (by decide), hgo]
    have g3 : getCol (attach_no_station r) "LATITUDE_firestation"
        = none := getCol_attach_no_station_lat r hlat
    have g4 : getCol (attach_no_station r) "LONGITUDE_firestation"
        = none := getCol_attach_no_station_long r hlong
    rw [distance_entry, g1, g2, g3, g4]
  · intro r s glat glon slat slon hlat hlong hga hgo hsa hso hid
    have hpred : (getCol s "FIRE_STATION_ID" == getCol r "FIRE_STATION_ID")
        = true := by
      rw [hid]
      exact beq_self_eq_true _
    simp only [merge_station_coords, List.flatMap_cons, List.flatMap_nil,
      List.append_nil, List.filter_cons, hpred, if_true, List.filter_nil,
      List.map_cons, List.map_nil]
    have g1 : getCol (attach_station r s) "grid_lat"
        = some (.num glat) := by
      rw [getCol_attach_station_other r s _ (by decide) (by decide), hga]
    have g2 : getCol (attach_station r s) "grid_long"
        = some (.num glon) := by
      rw [getCol_attach_station_other r s _ (by decide) (by decide), hgo]
    have g3 : getCol (attach_station r s) "LATITUDE_firestation"
        = some (.num slat) := by
      rw [getCol_attach_station_lat r s hlat, hsa]
    have g4 : getCol (attach_station r s) "LONGITUDE_firestation"
        = some (.num slon) := by
      rw [getCol_attach_station_long r s hlong, hso]
    rw [distance_entry, g1, g2, g3, g4]

/-- C3 counterexample: after the merge with station 20 and the final
cleanup, the joined station latitude column is still present with the
station value, while the LATITUDE column of the merged table itself,
which held 45 and is not a derived column, has been removed. -/
theorem create_input_table_cleanup_cex :
    List.lookup "LATITUDE" merged_row = some (some (.num 45)) ∧
    ((merge_station_coords [merged_row] [station20]).map final_cleanup).map
        (fun r => (List.lookup "LATITUDE_firestation" r,
                   List.lookup "LATITUDE" r))
      = [(some (some (.num 3)), none)] := by decide

/-- C3 as amended: the final cleanup drops exactly the columns named
LATITUDE and LONGITUDE, the unsuffixed point coordinates of the merged
table; every other column, the suffixed station coordinate columns
included, keeps its value unchanged. -/
theorem create_input_table_cleanup_spec :
    (∀ r : Row, (final_cleanup r).map Prod.fst =
      (r.map Prod.fst).filter
        (fun c => !(["LATITUDE", "LONGITUDE"].contains c))) ∧
    (∀ (r : Row) (c : String), (c = "LATITUDE" ∨ c = "LONGITUDE") →
      List.lookup c (final_cleanup r) = none) ∧
    (∀ (r : Row) (c : String), ¬(c = "LATITUDE" ∨ c = "LONGITUDE") →
      List.lookup c (final_cleanup r) = List.lookup c r) := by
  refine ⟨fun r => ?_, fun r c hc => ?_, fun r c hc => ?_⟩
  · induction r with
    | nil => rfl
    | cons p rest ih =>
      simp only [final_cleanup, drop_columns_row] at ih ⊢
      by_cases h1 : p.1 = "LATITUDE" <;> by_cases h2 : p.1 = "LONGITUDE" <;>
        simp [List.filter_cons, h1, h2] <;> simpa using ih
  · rw [final_cleanup, lookup_drop_columns_row]
    split
    · rfl
    · next h =>
      exact absurd
        (by rcases hc with rfl | rfl <;> decide :
          (["LATITUDE", "LONGITUDE"].contains c) = true) h
  · rw [final_cleanup, lookup_drop_columns_row]
    split
    · next h =>
      exact absurd (by simpa using h) hc
    · rfl

/-- C9: an assessment-origin row whose raw construction year was
non-numeric or null gets 0 from integer coercion, 0 survives the
greater-than-current-year check, and the derived building age is the
non-null value current year minus 0, that is the current calendar year. -/
theorem building_age_defaulted_year_spec :
    (∀ (current_year : Int) (aid : Value),
      building_age_entry current_year (some aid)
          (year_construction_clamp (parse_integers .nonNumeric))
        = some current_year) ∧
    building_age_entry 2025 (some (.str "1000001"))
        (year_construction_clamp (parse_integers .nonNumeric))
      = some 2025 := by
  constructor
  · intro cy aid
    simp [building_age_entry, year_construction_clamp, parse_integers,
      to_numeric_coerce, fillna_zero, astype_int, calculate_building_age]
  · simp [building_age_entry, year_construction_clamp, parse_integers,
      to_numeric_coerce, fillna_zero, astype_int, calculate_building_age]

/-- C8: the time-of-day bucketing returns morning on [5,12), afternoon on
[12,17), evening on [17,21) and night otherwise; in particular hour 4 maps
to night, 5 and 11 to morning, 12 and 16 to afternoon, 17 and 20 to
evening, and 21 and 23 to night. -/
theorem get_time_of_day_spec :
    (∀ h : Int,
      (get_time_of_day h = "morning" ↔ 5 ≤ h ∧ h < 12) ∧
      (get_time_of_day h = "afternoon" ↔ 12 ≤ h ∧ h < 17) ∧
      (get_time_of_day h = "evening" ↔ 17 ≤ h ∧ h < 21) ∧
      (get_time_of_day h = "night" ↔ (h < 5 ∨ 21 ≤ h))) ∧
    (get_time_of_day 4 = "night" ∧ get_time_of_day 5 = "morning" ∧
     get_time_of_day 11 = "morning" ∧ get_time_of_day 12 = "afternoon" ∧
     get_time_of_day 16 = "afternoon" ∧ get_time_of_day 17 = "evening" ∧
     get_time_of_day 20 = "evening" ∧ get_time_of_day 21 = "night" ∧
     get_time_of_day 23 = "night") := by
  constructor
  · intro h
    simp only [get_time_of_day]
    split_ifs with h1 h2 h3 <;>
      refine ⟨?_, ?_, ?_, ?_⟩ <;> simp_all <;> omega
  · refine ⟨?_, ?_, ?_, ?_, ?_, ?_, ?_, ?_, ?_⟩ <;> decide

/-- C7: integer coercion is a total function (it returns an integer on
every raw cell, so it never raises); every non-numeric input yields
exactly 0, and every numeric input whose value is an integer yields that
integer. -/
theorem parse_integers_spec :
    parse_integers .nonNumeric = 0 ∧
    (∀ n : Int, parse_integers (.numeric (n : Rat)) = n) ∧
    parse_integers (.numeric (42 : Rat)) = 42 := by
  refine ⟨?_, ?_, ?_⟩
  · simp [parse_integers, to_numeric_coerce, fillna_zero, astype_int]
  · intro n
    simp only [parse_integers, to_numeric_coerce, fillna_zero, Option.getD,
      astype_int]
    split_ifs <;> simp
  · simp [parse_integers, to_numeric_coerce, fillna_zero, astype_int]

/-- C4: in preprocess_property_assessments every year of construction
strictly greater than 2024 (the hard-coded current processing year) is
replaced by a missing value, and every year less than or equal to 2024 is
kept unchanged; the replacement is a total function, so no input raises. -/
theorem preprocess_property_assessments_year_spec :
    (∀ y : Int, 2024 < y → year_construction_clamp y = none) ∧
    (∀ y : Int, y ≤ 2024 → year_construction_clamp y = some y) ∧
    (year_construction_clamp 2025 = none ∧
     year_construction_clamp 2024 = some 2024 ∧
     year_construction_clamp 1900 = some 1900) := by
  refine ⟨?_, ?_, by decide⟩
  · intro y hy
    simp [year_construction_clamp]
    omega
  · intro y hy
    simp [year_construction_clamp, hy]

end MontrealFire
